import Mathlib

/-!
Shallow embedding of the hudsucker intercepting-proxy core
(src/proxy/internal.rs) and proofs of the specification claims.

Header maps are modelled as ordered association lists of
(lower-case name, value) pairs, matching the iteration order of the
hyper HeaderMap. Byte strings are lists of naturals.
-/

namespace Hudsucker

/-- HTTP protocol versions, as in hyper::Version. -/
inductive Version
  | http09
  | http10
  | http11
  | http2
  | http3
  deriving DecidableEq, Repr

/-- HTTP request methods; only CONNECT is tested by the dispatcher. -/
inductive Method
  | CONNECT
  | GET
  | POST
  | other (s : String)
  deriving DecidableEq, Repr

/-- The components of a URI, as in http::uri::Parts: scheme, authority
and path-and-query, each optional. -/
structure UriParts where
  scheme : Option String
  authority : Option String
  pathq : Option String
  deriving DecidableEq, Repr

/-- Header list: pairs of lower-case header name and value, in
iteration order of the hyper HeaderMap. -/
def Headers : Type := List (String × String)

instance : DecidableEq Headers := by
  unfold Headers
  infer_instance

/-- An HTTP request: method, URI, headers, version, body bytes. -/
structure Request where
  method : Method
  uri : UriParts
  headers : List (String × String)
  version : Version
  body : List Nat
  deriving DecidableEq, Repr

/-- An HTTP response: status code, headers, body bytes. -/
structure Response where
  status : Nat
  headers : List (String × String)
  body : List Nat
  deriving DecidableEq, Repr

/-- Embeds bad_request (internal.rs line 23): a 400 response with an
empty body. -/
def bad_request : Response :=
  { status := 400, headers := [], body := [] }

/-! ### Header-map operations

These model the hyper HeaderMap operations used by normalize_request:
remove (which drops every value of the name), iterating the values of
one entry, and OccupiedEntry.insert (which replaces every value of the
entry with a single one, keeping the position of the first). -/

/-- All values of a header name, in iteration order
(HeaderMap get_all). -/
def getAll (hs : List (String × String)) (name : String) : List String :=
  (hs.filter (fun p => p.1 = name)).map (fun p => p.2)

/-- HeaderMap remove: drops every value associated with the name. -/
def removeHeader (hs : List (String × String)) (name : String) :
    List (String × String) :=
  hs.filter (fun p => p.1 ≠ name)

/-- OccupiedEntry.insert: the first entry of the name keeps its place
and receives the new value; every later entry of the name is dropped. -/
def replaceEntry : List (String × String) → String → String →
    List (String × String)
  | [], _, _ => []
  | (k, w) :: rest, name, v =>
      if k = name then (k, v) :: removeHeader rest name
      else (k, w) :: replaceEntry rest name v

/-- bstr::join with the separator "; " over the values of the cookie
entry. -/
def joinValues : List String → String
  | [] => ""
  | [v] => v
  | v :: rest => v ++ "; " ++ joinValues rest

/-- The cookie step of normalize_request: when the cookie entry is
occupied, replace it with the single joined value. -/
def joinCookies (hs : List (String × String)) : List (String × String) :=
  match getAll hs "cookie" with
  | [] => hs
  | vs => replaceEntry hs "cookie" (joinValues vs)

/-- The header part of normalize_request: remove every Host entry,
then join the cookie entry. -/
def normalizeHeaders (hs : List (String × String)) : List (String × String) :=
  joinCookies (removeHeader hs "host")

/-- Embeds normalize_request (internal.rs lines 384-397): remove the
Host header, join multiple Cookie values into one with "; ", force the
version to HTTP/1.1. -/
def normalize_request (req : Request) : Request :=
  { req with headers := normalizeHeaders req.headers,
             version := Version.http11 }

/-! ### CONNECT demultiplexer (process_connect, internal.rs 126-221)

The spawned tunnel task reads up to 4 bytes of the upgraded stream
into a zero-initialized 4-byte buffer and compares the WHOLE buffer
against the markers. The bytes actually read are the chunk; the buffer
is the chunk padded with zeros to 4 bytes. -/

/-- The zero-initialized 4-byte sniff buffer after reading the chunk
(internal.rs line 133: let mut buffer = [0; 4]). The read never
returns more than 4 bytes; take 4 makes the model total. -/
def sniffBuffer (chunk : List Nat) : List Nat :=
  (chunk ++ List.replicate 4 0).take 4

/-- The three ways the demultiplexer can handle the tunneled stream. -/
inductive ConnectAction
  | serveHttp
  | serveTls
  | blindTunnel
  deriving DecidableEq, Repr

/-- Embeds the dispatch decision of the spawned CONNECT task
(internal.rs lines 147-210): under should_intercept, a buffer equal to
"GET " selects the plaintext inner HTTP server, a buffer starting
0x16 0x03 selects the TLS acceptor, anything else (and every
non-intercepted connection) the blind TCP tunnel. -/
def connectDispatch (intercept : Bool) (chunk : List Nat) : ConnectAction :=
  let buffer := sniffBuffer chunk
  if intercept then
    if buffer = [0x47, 0x45, 0x54, 0x20] then ConnectAction.serveHttp
    else if buffer.take 2 = [0x16, 0x03] then ConnectAction.serveTls
    else ConnectAction.blindTunnel
  else ConnectAction.blindTunnel

/-- Observable side effects of one dispatcher invocation. -/
inductive Event
  | handleRequestCall
  | outboundSend
  | handleResponseCall
  | handleErrorCall
  | spawnTunnel
  | spawnWsBridge
  deriving DecidableEq, Repr

/-- Embeds the synchronous part of process_connect (internal.rs
126-221): with an authority, spawn the tunnel task and answer with an
empty 200 response (Response::new(Body::empty())); without one, answer
400 and spawn nothing. -/
def process_connect (req : Request) : Response × List Event :=
  match req.uri.authority with
  | some _ => ({ status := 200, headers := [], body := [] }, [Event.spawnTunnel])
  | none => (bad_request, [])

/-! ### WebSocket bridge (upgrade_websocket, internal.rs 224-298) -/

/-- Scheme rewrite of the upgrade request (internal.rs 231-235): a
missing scheme defaults to http; http becomes ws, every other scheme
becomes wss. -/
def rewriteScheme (s : Option String) : String :=
  if s.getD "http" = "http" then "ws" else "wss"

/-- Uri::from_parts of the http crate: a scheme requires both an
authority and a path-and-query; without a scheme, an authority
together with a path-and-query is also rejected. -/
def uriFromParts (p : UriParts) : Option UriParts :=
  match p.scheme with
  | some _ =>
      if p.authority.isSome && p.pathq.isSome then some p else none
  | none =>
      if p.authority.isSome && p.pathq.isSome then none else some p

/-- One value of a comma-separated header, split and trimmed, compared
case-insensitively (header_contains_value of hyper_tungstenite). -/
def headerContainsValue (hs : List (String × String)) (name value : String) :
    Bool :=
  (getAll hs name).any fun v =>
    ((v.splitOn ",").map (fun t => t.trim)).any fun t =>
      t.toLower = value.toLower

/-- is_upgrade_request of hyper_tungstenite: the Connection header
lists upgrade and the Upgrade header lists websocket. -/
def is_upgrade_request (req : Request) : Bool :=
  headerContainsValue req.headers "connection" "upgrade" &&
  headerContainsValue req.headers "upgrade" "websocket"

/-- The validation done by hyper_tungstenite upgrade, whose failure
internal.rs line 296 maps to bad_request: the Sec-WebSocket-Key header
must be present and the first Sec-WebSocket-Version value must be 13. -/
def wsUpgradeHeadersOk (req : Request) : Bool :=
  (getAll req.headers "sec-websocket-key") ≠ [] &&
  (getAll req.headers "sec-websocket-version").head? = some "13"

/-- The origin handshake response produced by the outbound WebSocket
connect: status, headers and an optional body. -/
structure OriginResponse where
  status : Nat
  headers : List (String × String)
  body : Option (List Nat)
  deriving DecidableEq, Repr

/-- Outcome of the outbound WebSocket dial (connect_async). -/
inductive DialResult
  | ok (resp : OriginResponse)
  | failed
  deriving DecidableEq, Repr

/-- internal.rs line 294: the origin response is passed back to the
client, an absent body becoming Body::empty(). -/
def originToClient (o : OriginResponse) : Response :=
  { status := o.status, headers := o.headers, body := o.body.getD [] }

/-- Embeds upgrade_websocket (internal.rs 224-298). The fabricated
handshake response of the local server-side upgrade is received and
discarded (the wildcard in Ok((_, websocket))); the dial outcome is an
oracle. Order as in the code: rewrite the scheme, reassemble the URI
(failure gives 400), run the server-side upgrade (header validation
failure gives 400), dial (failure gives 400), then spawn the bridge
and return the origin response. -/
def upgrade_websocket (req : Request) (fabricated : Response)
    (dial : DialResult) : Response × List Event :=
  let newScheme := rewriteScheme req.uri.scheme
  match uriFromParts { req.uri with scheme := some newScheme } with
  | none => (bad_request, [])
  | some _ =>
      if wsUpgradeHeadersOk req then
        match dial with
        | DialResult.ok origin => (originToClient origin, [Event.spawnWsBridge])
        | DialResult.failed => (bad_request, [])
      else (bad_request, [])

/-! ### Per-request dispatcher (proxy, internal.rs 86-124) -/

/-- The uninhabited error type of the dispatcher result
(std::convert::Infallible). -/
inductive Infallible

/-- The result of handle_request: a request to forward or a response
that short-circuits. -/
inductive RequestOrResponse
  | request (r : Request)
  | response (r : Response)

/-- An outbound transport error of the hyper client. -/
structure HttpError where
  msg : String
  deriving DecidableEq, Repr

/-- The user-supplied HTTP handler interface. -/
structure Handler where
  handleRequest : Request → RequestOrResponse
  handleResponse : Response → Response
  handleError : HttpError → Response

/-- Embeds proxy (internal.rs 86-124): run handle_request; a response
short-circuits; CONNECT goes to process_connect; an upgrade request
goes to upgrade_websocket; everything else is normalized, sent to the
outbound client (an oracle), and the outcome routed through
handle_response or handle_error. Every branch returns ok. -/
def proxy (h : Handler) (send : Request → Except HttpError Response)
    (fabricated : Response) (dial : DialResult) (req : Request) :
    Except Infallible (Response × List Event) :=
  match h.handleRequest req with
  | RequestOrResponse.response res =>
      Except.ok (res, [Event.handleRequestCall])
  | RequestOrResponse.request req =>
      if req.method = Method.CONNECT then
        let r := process_connect req
        Except.ok (r.1, Event.handleRequestCall :: r.2)
      else if is_upgrade_request req then
        let r := upgrade_websocket req fabricated dial
        Except.ok (r.1, Event.handleRequestCall :: r.2)
      else
        match send (normalize_request req) with
        | Except.ok res =>
            Except.ok (h.handleResponse res,
              [Event.handleRequestCall, Event.outboundSend,
               Event.handleResponseCall])
        | Except.error e =>
            Except.ok (h.handleError e,
              [Event.handleRequestCall, Event.outboundSend,
               Event.handleErrorCall])

/-- A sample request used by witnesses: two cookie values, a host
header, an unrelated header. -/
def sampleRequest : Request :=
  { method := Method.GET
    uri := { scheme := some "http", authority := some "example.com",
             pathq := some "/hello" }
    headers := [("host", "example.com"), ("cookie", "a=1"),
                ("accept", "text/html"), ("cookie", "b=2")]
    version := Version.http2
    body := [] }

/-- A CONNECT request whose URI has no authority (origin-form). -/
def connectReqNoAuth : Request :=
  { method := Method.CONNECT
    uri := { scheme := none, authority := none, pathq := some "/foo/bar?baz" }
    headers := []
    version := Version.http11
    body := [] }

/-- A CONNECT request with an authority. -/
def connectReqAuth : Request :=
  { method := Method.CONNECT
    uri := { scheme := none, authority := some "example.com:443",
             pathq := none }
    headers := []
    version := Version.http11
    body := [] }

/-- A well-formed WebSocket upgrade request over http. -/
def wsUpgradeRequest : Request :=
  { method := Method.GET
    uri := { scheme := some "http", authority := some "example.com",
             pathq := some "/" }
    headers := [("connection", "Upgrade"), ("upgrade", "websocket"),
                ("sec-websocket-key", "dGhlIHNhbXBsZSBub25jZQ=="),
                ("sec-websocket-version", "13")]
    version := Version.http11
    body := [] }

/-- A scheme-less upgrade request with a representable URI: the
origin-form "/" (no scheme, no authority), the only way a parsed
http::Uri can lack a scheme while carrying a path. -/
def originFormWsRequest : Request :=
  { wsUpgradeRequest with
    uri := { scheme := none, authority := none, pathq := some "/" } }

/-- A WebSocket upgrade request whose URI scheme is https. -/
def httpsWsRequest : Request :=
  { wsUpgradeRequest with
    uri := { scheme := some "https", authority := some "example.com",
             pathq := some "/" } }

/-- An origin handshake response: 101 Switching Protocols. -/
def originResp101 : OriginResponse :=
  { status := 101, headers := [("upgrade", "websocket")], body := none }

/-- A 418 response used by the short-circuit witness. -/
def teapotResponse : Response :=
  { status := 418, headers := [], body := [] }

/-- A handler that forwards every request unchanged. -/
def idHandler : Handler :=
  { handleRequest := fun r => RequestOrResponse.request r
    handleResponse := fun r => r
    handleError := fun _ => bad_request }

/-- A handler that short-circuits every request with the 418
response. -/
def shortCircuitHandler : Handler :=
  { handleRequest := fun _ => RequestOrResponse.response teapotResponse
    handleResponse := fun r => r
    handleError := fun _ => bad_request }

/-- An outbound client that always fails with a transport error. -/
def failSend : Request → Except HttpError Response :=
  fun _ => Except.error { msg := "connection refused" }

/-! ### Header-map lemmas -/

theorem getAll_cons (k w : String) (t : List (String × String)) (n : String) :
    getAll ((k, w) :: t) n = if k = n then w :: getAll t n else getAll t n := by
  by_cases h : k = n <;> simp [getAll, h]

theorem removeHeader_cons (k w : String) (t : List (String × String))
    (n : String) :
    removeHeader ((k, w) :: t) n =
      if k = n then removeHeader t n else (k, w) :: removeHeader t n := by
  by_cases h : k = n <;> simp [removeHeader, h]

theorem getAll_removeHeader_self (hs : List (String × String)) (n : String) :
    getAll (removeHeader hs n) n = [] := by
  induction hs with
  | nil => rfl
  | cons p t ih =>
      obtain ⟨k, w⟩ := p
      by_cases h : k = n <;>
        simp [removeHeader_cons, getAll_cons, h, ih]

theorem getAll_removeHeader_ne (hs : List (String × String)) (n m : String)
    (hnm : n ≠ m) :
    getAll (removeHeader hs m) n = getAll hs n := by
  induction hs with
  | nil => rfl
  | cons p t ih =>
      obtain ⟨k, w⟩ := p
      by_cases h : k = m
      · subst h
        simp [removeHeader_cons, getAll_cons, ih, Ne.symm hnm]
      · by_cases h2 : k = n <;>
          simp [removeHeader_cons, getAll_cons, h, h2, hnm, ih]

theorem removeHeader_of_getAll_nil (hs : List (String × String)) (n : String)
    (h : getAll hs n = []) : removeHeader hs n = hs := by
  induction hs with
  | nil => rfl
  | cons p t ih =>
      obtain ⟨k, w⟩ := p
      by_cases hk : k = n
      · rw [getAll_cons] at h
        simp [hk] at h
      · rw [getAll_cons] at h
        simp [hk] at h
        simp [removeHeader_cons, hk, ih h]

theorem getAll_replaceEntry_self (hs : List (String × String)) (n v : String)
    (h : getAll hs n ≠ []) : getAll (replaceEntry hs n v) n = [v] := by
  induction hs with
  | nil => simp [getAll] at h
  | cons p t ih =>
      obtain ⟨k, w⟩ := p
      by_cases hk : k = n
      · simp [replaceEntry, hk, getAll_cons, getAll_removeHeader_self]
      · rw [getAll_cons] at h
        simp [hk] at h
        simp [replaceEntry, hk, getAll_cons, ih h]

theorem getAll_replaceEntry_ne (hs : List (String × String)) (n m v : String)
    (hnm : n ≠ m) :
    getAll (replaceEntry hs m v) n = getAll hs n := by
  induction hs with
  | nil => rfl
  | cons p t ih =>
      obtain ⟨k, w⟩ := p
      by_cases hk : k = m
      · subst hk
        simp [replaceEntry, getAll_cons, Ne.symm hnm,
          getAll_removeHeader_ne _ _ _ hnm]
      · by_cases h2 : k = n <;>
          simp [replaceEntry, hk, getAll_cons, h2, hnm, ih]

theorem replaceEntry_of_getAll_singleton (hs : List (String × String))
    (n v : String) (h : getAll hs n = [v]) : replaceEntry hs n v = hs := by
  induction hs with
  | nil => rfl
  | cons p t ih =>
      obtain ⟨k, w⟩ := p
      by_cases hk : k = n
      · subst hk
        rw [getAll_cons] at h
        simp at h
        obtain ⟨hw, ht⟩ := h
        simp [replaceEntry, hw, removeHeader_of_getAll_nil t k ht]
      · rw [getAll_cons] at h
        simp [hk] at h
        simp [replaceEntry, hk, ih h]

theorem joinValues_singleton (v : String) : joinValues [v] = v := rfl

/-! ### Normalizer lemmas -/

theorem joinCookies_of_nil (hs : List (String × String))
    (h : getAll hs "cookie" = []) : joinCookies hs = hs := by
  unfold joinCookies
  rw [h]

theorem joinCookies_of_singleton (hs : List (String × String)) (v : String)
    (h : getAll hs "cookie" = [v]) : joinCookies hs = hs := by
  unfold joinCookies
  rw [h]
  show replaceEntry hs "cookie" (joinValues [v]) = hs
  rw [joinValues_singleton]
  exact replaceEntry_of_getAll_singleton _ _ _ h

theorem joinCookies_cookie (hs : List (String × String)) (vs : List String)
    (hne : vs ≠ []) (hv : getAll hs "cookie" = vs) :
    getAll (joinCookies hs) "cookie" = [joinValues vs] := by
  unfold joinCookies
  rw [hv]
  cases vs with
  | nil => exact absurd rfl hne
  | cons v t =>
      show getAll (replaceEntry hs "cookie" (joinValues (v :: t))) "cookie"
        = _
      exact getAll_replaceEntry_self _ _ _ (by rw [hv]; exact hne)

theorem joinCookies_getAll_ne (hs : List (String × String)) (n : String)
    (hcookie : n ≠ "cookie") :
    getAll (joinCookies hs) n = getAll hs n := by
  unfold joinCookies
  cases hc : getAll hs "cookie" with
  | nil => rfl
  | cons v t =>
      show getAll (replaceEntry hs "cookie" (joinValues (v :: t))) n = _
      exact getAll_replaceEntry_ne _ _ _ _ hcookie

/-- After joining, the cookie entry is empty or a single value. -/
theorem joinCookies_shape (hs : List (String × String)) :
    getAll (joinCookies hs) "cookie" = [] ∨
    ∃ v, getAll (joinCookies hs) "cookie" = [v] := by
  cases hc : getAll hs "cookie" with
  | nil => exact Or.inl (by rw [joinCookies_of_nil hs hc]; exact hc)
  | cons v t =>
      exact Or.inr ⟨joinValues (v :: t),
        joinCookies_cookie hs (v :: t) (by simp) hc⟩

theorem joinCookies_idem (hs : List (String × String)) :
    joinCookies (joinCookies hs) = joinCookies hs := by
  rcases joinCookies_shape hs with h | ⟨v, h⟩
  · exact joinCookies_of_nil _ h
  · exact joinCookies_of_singleton _ _ h

theorem normalizeHeaders_host (hs : List (String × String)) :
    getAll (normalizeHeaders hs) "host" = [] := by
  unfold normalizeHeaders
  rw [joinCookies_getAll_ne _ _ (by decide)]
  exact getAll_removeHeader_self hs "host"

theorem normalizeHeaders_cookie (hs : List (String × String))
    (vs : List String) (hne : vs ≠ []) (hv : getAll hs "cookie" = vs) :
    getAll (normalizeHeaders hs) "cookie" = [joinValues vs] := by
  unfold normalizeHeaders
  exact joinCookies_cookie _ _ hne
    (by rw [getAll_removeHeader_ne _ _ _ (by decide)]; exact hv)

theorem normalizeHeaders_other (hs : List (String × String)) (n : String)
    (hhost : n ≠ "host") (hcookie : n ≠ "cookie") :
    getAll (normalizeHeaders hs) n = getAll hs n := by
  unfold normalizeHeaders
  rw [joinCookies_getAll_ne _ _ hcookie]
  exact getAll_removeHeader_ne _ _ _ hhost

theorem normalizeHeaders_idem (hs : List (String × String)) :
    normalizeHeaders (normalizeHeaders hs) = normalizeHeaders hs := by
  have hhost : getAll (normalizeHeaders hs) "host" = [] :=
    normalizeHeaders_host hs
  show joinCookies (removeHeader (normalizeHeaders hs) "host")
    = normalizeHeaders hs
  rw [removeHeader_of_getAll_nil _ _ hhost]
  show joinCookies (joinCookies (removeHeader hs "host"))
    = joinCookies (removeHeader hs "host")
  exact joinCookies_idem _

/-! ### Sniff-buffer lemmas -/

theorem sniffBuffer_nil : sniffBuffer [] = [0, 0, 0, 0] := rfl

theorem sniffBuffer_one (a : Nat) : sniffBuffer [a] = [a, 0, 0, 0] := rfl

theorem sniffBuffer_two (a b : Nat) : sniffBuffer [a, b] = [a, b, 0, 0] := rfl

theorem sniffBuffer_three (a b c : Nat) :
    sniffBuffer [a, b, c] = [a, b, c, 0] := rfl

theorem sniffBuffer_four (a b c d : Nat) (rest : List Nat) :
    sniffBuffer (a :: b :: c :: d :: rest) = [a, b, c, d] := rfl

theorem take_two_cons (a b : Nat) (l : List Nat) :
    (a :: b :: l).take 2 = [a, b] := rfl

theorem take_four_cons (a b c d : Nat) (l : List Nat) :
    (a :: b :: c :: d :: l).take 4 = [a, b, c, d] := rfl

theorem connectDispatch_false (chunk : List Nat) :
    connectDispatch false chunk = ConnectAction.blindTunnel := rfl

/-! ### Claim theorems -/

/-- Claim C1: under the intercept predicate, a sniffed prefix whose
first four bytes are "GET " selects the plaintext inner HTTP server, a
prefix whose first two bytes are 0x16 0x03 selects the TLS acceptor,
and any other prefix the blind tunnel; when the predicate is false the
blind tunnel is selected regardless of the prefix. -/
theorem C1_sniff_dispatch (intercept : Bool) (chunk : List Nat) :
    (intercept = true →
      (chunk.take 4 = [0x47, 0x45, 0x54, 0x20] →
        connectDispatch intercept chunk = ConnectAction.serveHttp) ∧
      (chunk.take 2 = [0x16, 0x03] →
        connectDispatch intercept chunk = ConnectAction.serveTls) ∧
      (chunk.take 4 ≠ [0x47, 0x45, 0x54, 0x20] →
        chunk.take 2 ≠ [0x16, 0x03] →
        connectDispatch intercept chunk = ConnectAction.blindTunnel)) ∧
    (intercept = false →
      connectDispatch intercept chunk = ConnectAction.blindTunnel) := by
  constructor
  · rintro rfl
    refine ⟨?_, ?_, ?_⟩
    · intro h4
      rcases chunk with _ | ⟨a, _ | ⟨b, _ | ⟨c, _ | ⟨d, rest⟩⟩⟩⟩
      · exact absurd (show ([] : List Nat) = [0x47, 0x45, 0x54, 0x20]
          from h4) (by simp)
      · exact absurd (show ([a] : List Nat) = [0x47, 0x45, 0x54, 0x20]
          from h4) (by simp)
      · exact absurd (show ([a, b] : List Nat) = [0x47, 0x45, 0x54, 0x20]
          from h4) (by simp)
      · exact absurd (show ([a, b, c] : List Nat) = [0x47, 0x45, 0x54, 0x20]
          from h4) (by simp)
      · have h := show ([a, b, c, d] : List Nat) = [0x47, 0x45, 0x54, 0x20]
          from h4
        simp at h
        obtain ⟨rfl, rfl, rfl, rfl⟩ := h
        rfl
    · intro h2
      rcases chunk with _ | ⟨a, _ | ⟨b, rest⟩⟩
      · exact absurd (show ([] : List Nat) = [0x16, 0x03] from h2) (by simp)
      · exact absurd (show ([a] : List Nat) = [0x16, 0x03] from h2) (by simp)
      · have h := show ([a, b] : List Nat) = [0x16, 0x03] from h2
        simp at h
        obtain ⟨rfl, rfl⟩ := h
        rcases rest with _ | ⟨c, _ | ⟨d, r⟩⟩ <;> rfl
    · intro h4 h2
      rcases chunk with _ | ⟨a, _ | ⟨b, _ | ⟨c, _ | ⟨d, rest⟩⟩⟩⟩
      · rfl
      · show (if ([a, 0, 0, 0] : List Nat) = [0x47, 0x45, 0x54, 0x20]
            then ConnectAction.serveHttp
            else if ([a, 0, 0, 0] : List Nat).take 2 = [0x16, 0x03]
            then ConnectAction.serveTls
            else ConnectAction.blindTunnel) = ConnectAction.blindTunnel
        rw [if_neg (by simp), if_neg (by simp)]
      · show (if ([a, b, 0, 0] : List Nat) = [0x47, 0x45, 0x54, 0x20]
            then ConnectAction.serveHttp
            else if ([a, b, 0, 0] : List Nat).take 2 = [0x16, 0x03]
            then ConnectAction.serveTls
            else ConnectAction.blindTunnel) = ConnectAction.blindTunnel
        rw [if_neg (by simp),
          if_neg (show ¬(([a, b, 0, 0] : List Nat).take 2 = [0x16, 0x03])
            from h2)]
      · show (if ([a, b, c, 0] : List Nat) = [0x47, 0x45, 0x54, 0x20]
            then ConnectAction.serveHttp
            else if ([a, b, c, 0] : List Nat).take 2 = [0x16, 0x03]
            then ConnectAction.serveTls
            else ConnectAction.blindTunnel) = ConnectAction.blindTunnel
        rw [if_neg (by simp),
          if_neg (show ¬(([a, b, c, 0] : List Nat).take 2 = [0x16, 0x03])
            from h2)]
      · show (if ([a, b, c, d] : List Nat) = [0x47, 0x45, 0x54, 0x20]
            then ConnectAction.serveHttp
            else if ([a, b, c, d] : List Nat).take 2 = [0x16, 0x03]
            then ConnectAction.serveTls
            else ConnectAction.blindTunnel) = ConnectAction.blindTunnel
        rw [if_neg (show ¬(([a, b, c, d] : List Nat) = [0x47, 0x45, 0x54, 0x20])
            from h4),
          if_neg (show ¬(([a, b, c, d] : List Nat).take 2 = [0x16, 0x03])
            from h2)]
  · rintro rfl
    exact connectDispatch_false chunk

theorem C1_sniff_dispatch_witness :
    connectDispatch true [0x47, 0x45, 0x54, 0x20] = ConnectAction.serveHttp ∧
    connectDispatch true [0x16, 0x03, 0x01, 0x02] = ConnectAction.serveTls ∧
    connectDispatch true [0x05, 0x01, 0x00, 0x03]
      = ConnectAction.blindTunnel ∧
    connectDispatch false [0x47, 0x45, 0x54, 0x20]
      = ConnectAction.blindTunnel :=
  ⟨((C1_sniff_dispatch true [0x47, 0x45, 0x54, 0x20]).1 rfl).1 (by decide),
   ((C1_sniff_dispatch true [0x16, 0x03, 0x01, 0x02]).1 rfl).2.1 (by decide),
   ((C1_sniff_dispatch true [0x05, 0x01, 0x00, 0x03]).1 rfl).2.2
     (by decide) (by decide),
   (C1_sniff_dispatch false [0x47, 0x45, 0x54, 0x20]).2 rfl⟩

/-- Claim C9: the sniff comparisons run against the whole
zero-initialized 4-byte buffer, so when fewer than 4 bytes were read
the plaintext branch is never selected, and when fewer than 2 bytes
were read the TLS branch is never selected either and the connection
falls through to the blind tunnel. -/
theorem C9_short_sniff (intercept : Bool) (chunk : List Nat)
    (h : chunk.length < 4) :
    connectDispatch intercept chunk ≠ ConnectAction.serveHttp ∧
    (chunk.length < 2 →
      connectDispatch intercept chunk ≠ ConnectAction.serveTls ∧
      connectDispatch intercept chunk = ConnectAction.blindTunnel) := by
  cases intercept with
  | false =>
      refine ⟨?_, fun _ => ⟨?_, connectDispatch_false chunk⟩⟩ <;>
        rw [connectDispatch_false chunk] <;> simp
  | true =>
      rcases chunk with _ | ⟨a, _ | ⟨b, _ | ⟨c, _ | ⟨d, rest⟩⟩⟩⟩
      · exact ⟨by decide, fun _ => ⟨by decide, by decide⟩⟩
      · have e : connectDispatch true [a] = ConnectAction.blindTunnel := by
          show (if ([a, 0, 0, 0] : List Nat) = [0x47, 0x45, 0x54, 0x20]
              then ConnectAction.serveHttp
              else if ([a, 0, 0, 0] : List Nat).take 2 = [0x16, 0x03]
              then ConnectAction.serveTls
              else ConnectAction.blindTunnel) = ConnectAction.blindTunnel
          rw [if_neg (by simp), if_neg (by simp)]
        exact ⟨by rw [e]; simp, fun _ => ⟨by rw [e]; simp, e⟩⟩
      · refine ⟨?_, fun hlt => absurd hlt (by simp)⟩
        show (if ([a, b, 0, 0] : List Nat) = [0x47, 0x45, 0x54, 0x20]
            then ConnectAction.serveHttp
            else if ([a, b, 0, 0] : List Nat).take 2 = [0x16, 0x03]
            then ConnectAction.serveTls
            else ConnectAction.blindTunnel) ≠ ConnectAction.serveHttp
        rw [if_neg (by simp)]
        split <;> simp
      · refine ⟨?_, fun hlt => absurd hlt (by simp)⟩
        show (if ([a, b, c, 0] : List Nat) = [0x47, 0x45, 0x54, 0x20]
            then ConnectAction.serveHttp
            else if ([a, b, c, 0] : List Nat).take 2 = [0x16, 0x03]
            then ConnectAction.serveTls
            else ConnectAction.blindTunnel) ≠ ConnectAction.serveHttp
        rw [if_neg (by simp)]
        split <;> simp
      · exact absurd h (by simp)

theorem C9_short_sniff_witness :
    connectDispatch true [0x16] ≠ ConnectAction.serveHttp ∧
    (([0x16] : List Nat).length < 2 →
      connectDispatch true [0x16] ≠ ConnectAction.serveTls ∧
      connectDispatch true [0x16] = ConnectAction.blindTunnel) :=
  C9_short_sniff true [0x16] (by decide)

/-- Claim C3: after normalization no Host header remains; a request
with cookie values v1..vn (n at least 1) in iteration order ends with
exactly one Cookie header whose value is their join with the
separator; and the version is HTTP/1.1. -/
theorem C3_normalize_request_props (r : Request) :
    getAll (normalize_request r).headers "host" = [] ∧
    (∀ vs : List String, vs ≠ [] → getAll r.headers "cookie" = vs →
      getAll (normalize_request r).headers "cookie" = [joinValues vs]) ∧
    (normalize_request r).version = Version.http11 :=
  ⟨normalizeHeaders_host r.headers,
   fun vs hne hv => normalizeHeaders_cookie r.headers vs hne hv,
   rfl⟩

theorem C3_normalize_request_props_witness :
    getAll (normalize_request sampleRequest).headers "host" = [] ∧
    getAll (normalize_request sampleRequest).headers "cookie"
      = [joinValues ["a=1", "b=2"]] ∧
    (normalize_request sampleRequest).version = Version.http11 :=
  ⟨(C3_normalize_request_props sampleRequest).1,
   (C3_normalize_request_props sampleRequest).2.1 ["a=1", "b=2"]
     (by decide) (by decide),
   (C3_normalize_request_props sampleRequest).2.2⟩

/-- Claim C4: the request normalizer is idempotent. -/
theorem C4_normalize_request_idem (r : Request) :
    normalize_request (normalize_request r) = normalize_request r := by
  cases r with
  | mk m u h v b =>
      show Request.mk m u (normalizeHeaders (normalizeHeaders h))
          Version.http11 b
        = Request.mk m u (normalizeHeaders h) Version.http11 b
      rw [normalizeHeaders_idem]

/-- Claim C10: normalization changes nothing besides the Host header,
the Cookie headers and the protocol version: every other header name
keeps its values, and the method, URI and body are unchanged. -/
theorem C10_normalize_request_frame (r : Request) (n : String)
    (hhost : n ≠ "host") (hcookie : n ≠ "cookie") :
    getAll (normalize_request r).headers n = getAll r.headers n ∧
    (normalize_request r).method = r.method ∧
    (normalize_request r).uri = r.uri ∧
    (normalize_request r).body = r.body :=
  ⟨normalizeHeaders_other r.headers n hhost hcookie, rfl, rfl, rfl⟩

/-- Claim C2: a CONNECT request whose URI lacks an authority yields
the 400 response and spawns no tunnel task; with an authority the
dispatcher answers with an empty-body response and the tunnel task is
spawned in the background. -/
theorem C2_connect_authority (req : Request) :
    (req.uri.authority = none →
      process_connect req = (bad_request, []) ∧ bad_request.status = 400) ∧
    (∀ a, req.uri.authority = some a →
      (process_connect req).1.body = [] ∧
      (process_connect req).2 = [Event.spawnTunnel]) := by
  constructor
  · intro h
    exact ⟨by simp [process_connect, h], rfl⟩
  · intro a h
    constructor <;> simp [process_connect, h]

theorem C2_connect_authority_witness :
    (process_connect connectReqNoAuth = (bad_request, []) ∧
      bad_request.status = 400) ∧
    ((process_connect connectReqAuth).1.body = [] ∧
      (process_connect connectReqAuth).2 = [Event.spawnTunnel]) :=
  ⟨(C2_connect_authority connectReqNoAuth).1 rfl,
   (C2_connect_authority connectReqAuth).2 "example.com:443" rfl⟩

/-- Claim C6: the dispatcher always resolves with some response and
its error type is uninhabited; an outbound transport failure on the
plain forward path is converted into a response by handle_error; a
CONNECT request without an authority gets the 400 response. -/
theorem C6_dispatcher_total (h : Handler)
    (send : Request → Except HttpError Response) (fab : Response)
    (dial : DialResult) (req : Request) :
    (∃ out, proxy h send fab dial req = Except.ok out) ∧
    (∀ e : Infallible, False) ∧
    (∀ req2 e, h.handleRequest req = RequestOrResponse.request req2 →
      req2.method ≠ Method.CONNECT → is_upgrade_request req2 = false →
      send (normalize_request req2) = Except.error e →
      proxy h send fab dial req
        = Except.ok (h.handleError e,
            [Event.handleRequestCall, Event.outboundSend,
             Event.handleErrorCall])) ∧
    (∀ req2, h.handleRequest req = RequestOrResponse.request req2 →
      req2.method = Method.CONNECT → req2.uri.authority = none →
      proxy h send fab dial req
        = Except.ok (bad_request, [Event.handleRequestCall])) := by
  refine ⟨?_, ?_, ?_, ?_⟩
  · cases hr : h.handleRequest req with
    | response res =>
        exact ⟨(res, [Event.handleRequestCall]), by simp [proxy, hr]⟩
    | request req2 =>
        by_cases hc : req2.method = Method.CONNECT
        · exact ⟨((process_connect req2).1,
            Event.handleRequestCall :: (process_connect req2).2),
            by simp [proxy, hr, hc]⟩
        · by_cases hu : is_upgrade_request req2 = true
          · exact ⟨((upgrade_websocket req2 fab dial).1,
              Event.handleRequestCall :: (upgrade_websocket req2 fab dial).2),
              by simp [proxy, hr, hc, hu]⟩
          · cases hs : send (normalize_request req2) with
            | ok res =>
                exact ⟨(h.handleResponse res,
                  [Event.handleRequestCall, Event.outboundSend,
                   Event.handleResponseCall]),
                  by simp [proxy, hr, hc, hu, hs]⟩
            | error e =>
                exact ⟨(h.handleError e,
                  [Event.handleRequestCall, Event.outboundSend,
                   Event.handleErrorCall]),
                  by simp [proxy, hr, hc, hu, hs]⟩
  · exact fun e => nomatch e
  · intro req2 e hr hmc hup hsend
    simp [proxy, hr, hmc, hup, hsend]
  · intro req2 hr hmc hauth
    simp [proxy, hr, hmc, process_connect, hauth]

theorem C6_dispatcher_total_witness :
    proxy idHandler failSend bad_request DialResult.failed sampleRequest
      = Except.ok (idHandler.handleError { msg := "connection refused" },
          [Event.handleRequestCall, Event.outboundSend,
           Event.handleErrorCall]) :=
  (C6_dispatcher_total idHandler failSend bad_request DialResult.failed
      sampleRequest).2.2.1
    sampleRequest { msg := "connection refused" } rfl (by decide) rfl rfl

/-- Claim C7: when handle_request returns a response the dispatcher
returns exactly that response; the outbound client is never invoked,
no tunnel or bridge is spawned, and handle_response is not called. -/
theorem C7_short_circuit (h : Handler)
    (send : Request → Except HttpError Response) (fab : Response)
    (dial : DialResult) (req : Request) (res : Response)
    (hr : h.handleRequest req = RequestOrResponse.response res) :
    proxy h send fab dial req
      = Except.ok (res, [Event.handleRequestCall]) ∧
    (∀ out, proxy h send fab dial req = Except.ok out →
      Event.outboundSend ∉ out.2 ∧ Event.handleResponseCall ∉ out.2 ∧
      Event.spawnTunnel ∉ out.2 ∧ Event.spawnWsBridge ∉ out.2) := by
  have e : proxy h send fab dial req
      = Except.ok (res, [Event.handleRequestCall]) := by
    simp [proxy, hr]
  refine ⟨e, fun out hout => ?_⟩
  rw [e] at hout
  cases hout
  refine ⟨?_, ?_, ?_, ?_⟩ <;> simp

theorem C7_short_circuit_witness :
    proxy shortCircuitHandler failSend bad_request DialResult.failed
        sampleRequest
      = Except.ok (teapotResponse, [Event.handleRequestCall]) :=
  (C7_short_circuit shortCircuitHandler failSend bad_request
    DialResult.failed sampleRequest teapotResponse rfl).1

/-- Claim C8: once the URI rewrite and the local upgrade validation
succeed, a successful dial makes the bridge return the origin
handshake response to the client; the locally fabricated handshake
response never influences the result; a failed dial yields 400. -/
theorem C8_origin_handshake (req : Request) (p : UriParts)
    (hu : uriFromParts
        { req.uri with scheme := some (rewriteScheme req.uri.scheme) }
      = some p)
    (hh : wsUpgradeHeadersOk req = true) :
    (∀ fab origin, upgrade_websocket req fab (DialResult.ok origin)
        = (originToClient origin, [Event.spawnWsBridge])) ∧
    (∀ fab1 fab2 dial,
      upgrade_websocket req fab1 dial = upgrade_websocket req fab2 dial) ∧
    (∀ fab, upgrade_websocket req fab DialResult.failed
        = (bad_request, [])) := by
  refine ⟨?_, fun fab1 fab2 dial => rfl, ?_⟩
  · intro fab origin
    simp [upgrade_websocket, hu, hh]
  · intro fab
    simp [upgrade_websocket, hu, hh]

theorem C8_origin_handshake_witness :
    upgrade_websocket wsUpgradeRequest bad_request
        (DialResult.ok originResp101)
      = (originToClient originResp101, [Event.spawnWsBridge]) ∧
    upgrade_websocket wsUpgradeRequest bad_request DialResult.failed
      = (bad_request, []) :=
  ⟨(C8_origin_handshake wsUpgradeRequest
      { scheme := some "ws", authority := some "example.com",
        pathq := some "/" } rfl rfl).1 bad_request originResp101,
   (C8_origin_handshake wsUpgradeRequest
      { scheme := some "ws", authority := some "example.com",
        pathq := some "/" } rfl rfl).2.2 bad_request⟩

/-- Claim C5: for every request whose URI is representable (the
Uri::from_parts invariant, which uriFromParts encodes: a scheme
requires authority and path, and without a scheme the two cannot both
be present), the scheme of the upgrade request is rewritten http to ws
and https to wss; a request whose scheme is missing yields 400 — the
reassembly of the rewritten URI at internal.rs line 237 then always
fails — as does one whose URI lacks an authority or whose required
upgrade headers are absent. A malformed scheme is not representable
as an http scheme, so that conjunct of the claim is vacuous. -/
theorem C5_websocket_upgrade (req : Request) (fab : Response)
    (dial : DialResult) (hrep : uriFromParts req.uri = some req.uri) :
    (req.uri.scheme = some "http" → rewriteScheme req.uri.scheme = "ws") ∧
    (req.uri.scheme = some "https" → rewriteScheme req.uri.scheme = "wss") ∧
    (req.uri.scheme = none →
      upgrade_websocket req fab dial = (bad_request, [])) ∧
    (req.uri.authority = none →
      upgrade_websocket req fab dial = (bad_request, [])) ∧
    (wsUpgradeHeadersOk req = false →
      upgrade_websocket req fab dial = (bad_request, [])) := by
  refine ⟨?_, ?_, ?_, ?_, ?_⟩
  · intro hs
    rw [hs]
    rfl
  · intro hs
    rw [hs]
    rfl
  · intro hs
    have hcond : (req.uri.authority.isSome && req.uri.pathq.isSome)
        = false := by
      cases hb : (req.uri.authority.isSome && req.uri.pathq.isSome) with
      | false => rfl
      | true =>
          rw [show uriFromParts req.uri = none by
            simp [uriFromParts, hs, hb]] at hrep
          exact Option.noConfusion hrep
    simp [upgrade_websocket, uriFromParts, hcond]
  · intro hauth
    simp [upgrade_websocket, uriFromParts, hauth]
  · intro hh
    cases hu : uriFromParts
        { req.uri with scheme := some (rewriteScheme req.uri.scheme) } with
    | none => simp [upgrade_websocket, hu]
    | some p => simp [upgrade_websocket, hu, hh]

theorem C5_websocket_upgrade_witness :
    rewriteScheme wsUpgradeRequest.uri.scheme = "ws" ∧
    rewriteScheme httpsWsRequest.uri.scheme = "wss" ∧
    upgrade_websocket originFormWsRequest bad_request DialResult.failed
      = (bad_request, []) ∧
    upgrade_websocket originFormWsRequest bad_request
        (DialResult.ok originResp101)
      = (bad_request, []) ∧
    upgrade_websocket sampleRequest bad_request DialResult.failed
      = (bad_request, []) :=
  ⟨(C5_websocket_upgrade wsUpgradeRequest bad_request DialResult.failed
      rfl).1 rfl,
   (C5_websocket_upgrade httpsWsRequest bad_request DialResult.failed
      rfl).2.1 rfl,
   (C5_websocket_upgrade originFormWsRequest bad_request DialResult.failed
      rfl).2.2.1 rfl,
   (C5_websocket_upgrade originFormWsRequest bad_request
      (DialResult.ok originResp101) rfl).2.2.2.1 rfl,
   (C5_websocket_upgrade sampleRequest bad_request DialResult.failed
      rfl).2.2.2.2 rfl⟩

theorem C10_normalize_request_frame_witness :
    getAll (normalize_request sampleRequest).headers "accept"
      = getAll sampleRequest.headers "accept" ∧
    (normalize_request sampleRequest).method = sampleRequest.method ∧
    (normalize_request sampleRequest).uri = sampleRequest.uri ∧
    (normalize_request sampleRequest).body = sampleRequest.body :=
  C10_normalize_request_frame sampleRequest "accept" (by decide) (by decide)

end Hudsucker
